import Mathlib

/-!
# Verification of the Alerta Boreal ice-projection and species-risk model

Shallow embedding of the computational core of `app.py`: the historical
ice-extent data, the least-squares linear trend, the per-year ice-extent
query, and the per-species population-loss and risk classifications.
Real-valued quantities are embedded as exact rationals; Python's `round`
(round-half-to-even) is embedded as `pyRound`.
-/

namespace AlertaBoreal

/-- Python's built-in `round` to the nearest integer, ties to even
(banker's rounding), on exact rationals. -/
def pyRound (q : ℚ) : ℤ :=
  if q - ⌊q⌋ < 1/2 then ⌊q⌋
  else if 1/2 < q - ⌊q⌋ then ⌊q⌋ + 1
  else if ⌊q⌋ % 2 = 0 then ⌊q⌋ else ⌊q⌋ + 1

/-- The built-in fallback data set of `app.py` (lines 37-40): years
1980..2020 with ice extents 7.5, 6.8, 5.5, 4.2, 3.5 million km². -/
def datosEjemplo : List (ℤ × ℚ) :=
  [(1980, 7.5), (1990, 6.8), (2000, 5.5), (2010, 4.2), (2020, 3.5)]

/-- Outcome of attempting to read `data/hielo_artico_real.csv`: the file is
missing or unreadable, or a table was read whose columns either do or do not
include both required columns. -/
inductive CargaCSV where
  | faltante : CargaCSV
  | tabla : Bool → List (ℤ × ℚ) → CargaCSV

/-- The data-loading logic of `app.py` (lines 30-40): any failure (missing
file, or a table lacking the required columns, which raises `ValueError`
inside the same `try`) is caught by `except Exception` and the built-in
sample data is silently substituted; a well-formed table is sorted by year
and used as-is, with no check on the number of records. -/
def cargar_datos : CargaCSV → List (ℤ × ℚ)
  | .faltante => datosEjemplo
  | .tabla false _ => datosEjemplo
  | .tabla true filas => filas.mergeSort (fun a b => a.1 ≤ b.1)

/-- Number of historical records, as a rational. -/
def nDatos (datos : List (ℤ × ℚ)) : ℚ := datos.length

/-- Sum of the years column. -/
def sumX (datos : List (ℤ × ℚ)) : ℚ := (datos.map (fun r => (r.1 : ℚ))).sum

/-- Sum of the ice-extent column. -/
def sumY (datos : List (ℤ × ℚ)) : ℚ := (datos.map (fun r => r.2)).sum

/-- Sum of year × extent over the records. -/
def sumXY (datos : List (ℤ × ℚ)) : ℚ := (datos.map (fun r => (r.1 : ℚ) * r.2)).sum

/-- Sum of squared years. -/
def sumXX (datos : List (ℤ × ℚ)) : ℚ := (datos.map (fun r => (r.1 : ℚ) ^ 2)).sum

/-- Slope `a` of the ordinary least-squares line fitted by
`LinearRegression().fit(X, y)` (app.py lines 45-48), in closed form:
`a = (n Σxy − Σx Σy) / (n Σx² − (Σx)²)`. -/
def pendiente (datos : List (ℤ × ℚ)) : ℚ :=
  (nDatos datos * sumXY datos - sumX datos * sumY datos) /
    (nDatos datos * sumXX datos - sumX datos ^ 2)

/-- Intercept `b` of the fitted least-squares line: `b = (Σy − a Σx) / n`. -/
def intercepto (datos : List (ℤ × ℚ)) : ℚ :=
  (sumY datos - pendiente datos * sumX datos) / nDatos datos

/-- The fitted trend's prediction `a * year + b`
(`modelo.predict` in app.py line 54). -/
def prediccion (datos : List (ℤ × ℚ)) (anio : ℤ) : ℚ :=
  pendiente datos * anio + intercepto datos

/-- `hielo_para_anio` (app.py lines 50-54): if the year occurs in the
historical records, return the first matching record's extent; otherwise
return the fitted trend's prediction. -/
def hielo_para_anio (datos : List (ℤ × ℚ)) (anio : ℤ) : ℚ :=
  match datos.find? (fun r => r.1 == anio) with
  | some r => r.2
  | none => prediccion datos anio

/-- `baseline_hielo` (app.py line 56): the maximum ice extent observed in
the historical records (`datos["Millones_km2"].max()`). -/
def baseline_hielo (datos : List (ℤ × ℚ)) : ℚ :=
  (datos.map Prod.snd).foldr max 0

/-- `frac` (app.py lines 147 and 176):
`max(0.0, hielo_año / baseline_hielo)`. -/
def frac (datos : List (ℤ × ℚ)) (anio : ℤ) : ℚ :=
  max 0 (hielo_para_anio datos anio / baseline_hielo datos)

/-- A species entry of the `especies` table (app.py lines 61-90): current
population and vulnerability in [0,1]. -/
structure Especie where
  pop_actual : ℤ
  vulnerabilidad : ℚ

/-- "Oso polar" (app.py lines 62-68). -/
def osoPolar : Especie := ⟨26000, 0.8⟩

/-- "Foca anillada" (app.py lines 69-75). -/
def focaAnillada : Especie := ⟨5000000, 0.6⟩

/-- "Morsa" (app.py lines 76-82). -/
def morsa : Especie := ⟨300000, 0.5⟩

/-- "Narval" (app.py lines 83-89). -/
def narval : Especie := ⟨80000, 0.4⟩

/-- `riesgo_dinamico` (app.py lines 150 and 199):
`vulnerabilidad * (1 - frac)`. -/
def riesgo_dinamico (e : Especie) (datos : List (ℤ × ℚ)) (anio : ℤ) : ℚ :=
  e.vulnerabilidad * (1 - frac datos anio)

/-- `perdidos` (app.py lines 151 and 200):
`round(pop_actual * riesgo_dinamico)` — no clamp is applied. -/
def perdidos (e : Especie) (datos : List (ℤ × ℚ)) (anio : ℤ) : ℤ :=
  pyRound ((e.pop_actual : ℚ) * riesgo_dinamico e datos anio)

/-- `restantes` in the species tab (app.py line 152):
`int(pop_actual - perdidos)` — no clamp. -/
def restantes (e : Especie) (datos : List (ℤ × ℚ)) (anio : ℤ) : ℤ :=
  e.pop_actual - perdidos e datos anio

/-- `restantes` in the map loop (app.py line 201):
`max(0, pop_actual - perdidos)`. -/
def restantes_mapa (e : Especie) (datos : List (ℤ × ℚ)) (anio : ℤ) : ℤ :=
  max 0 (e.pop_actual - perdidos e datos anio)

/-- The four risk tiers of app.py lines 155-162 (Bajo/Moderado/Alto/Crítico). -/
inductive Riesgo where
  | bajo : Riesgo
  | moderado : Riesgo
  | alto : Riesgo
  | critico : Riesgo
deriving DecidableEq

/-- `riesgo_texto` (app.py lines 155-162, same thresholds as the map colors
at lines 204-211): `< 0.2 → Bajo`, `< 0.4 → Moderado`, `< 0.7 → Alto`,
otherwise Crítico. -/
def riesgo_texto (r : ℚ) : Riesgo :=
  if r < 0.2 then .bajo
  else if r < 0.4 then .moderado
  else if r < 0.7 then .alto
  else .critico

/-- The three ecosystem states of app.py lines 179-184. -/
inductive Estado where
  | estable : Estado
  | riesgo : Estado
  | critico : Estado
deriving DecidableEq

/-- `estado` (app.py lines 179-184) as a function of the projected extent:
`> 6 → estable`, `4 <= extent <= 6 → riesgo`, otherwise crítico. -/
def estado (hielo : ℚ) : Estado :=
  if hielo > 6 then .estable
  else if 4 ≤ hielo ∧ hielo ≤ 6 then .riesgo
  else .critico

/-- The ecosystem state computed for a queried year
(app.py lines 175-184). -/
def estado_para_anio (datos : List (ℤ × ℚ)) (anio : ℤ) : Estado :=
  estado (hielo_para_anio datos anio)

/-- Closed-form value of the slope fitted on the sample data:
`a = -530/5000 = -53/500 = -0.106`. -/
lemma pendiente_ejemplo : pendiente datosEjemplo = -53/500 := by
  norm_num [pendiente, nDatos, sumX, sumY, sumXY, sumXX, datosEjemplo]

/-- Closed-form value of the intercept fitted on the sample data:
`b = 217.5`. -/
lemma intercepto_ejemplo : intercepto datosEjemplo = 435/2 := by
  rw [intercepto, pendiente_ejemplo]
  norm_num [nDatos, sumX, sumY, datosEjemplo]

/-- On the sample data the baseline is the 1980 extent, 7.5. -/
lemma baseline_ejemplo : baseline_hielo datosEjemplo = 15/2 := by
  norm_num [baseline_hielo, datosEjemplo]

/-- Year 2000 is a record of the sample data, so the query returns the
recorded 5.5. -/
lemma hielo_ejemplo_2000 : hielo_para_anio datosEjemplo 2000 = 11/2 := by
  simp [hielo_para_anio, datosEjemplo, List.find?]
  norm_num

/-- Year 1981 is not a record; the trend predicts 7.514, above the
baseline 7.5. -/
lemma hielo_ejemplo_1981 : hielo_para_anio datosEjemplo 1981 = 3757/500 := by
  have h : datosEjemplo.find? (fun r => r.1 == (1981:ℤ)) = none := by
    simp [datosEjemplo]
  simp only [hielo_para_anio, h]
  rw [prediccion, pendiente_ejemplo, intercepto_ejemplo]
  norm_num

/-- Year 2044 is not a record; the trend predicts 0.836. -/
lemma hielo_ejemplo_2044 : hielo_para_anio datosEjemplo 2044 = 209/250 := by
  have h : datosEjemplo.find? (fun r => r.1 == (2044:ℤ)) = none := by
    simp [datosEjemplo]
  simp only [hielo_para_anio, h]
  rw [prediccion, pendiente_ejemplo, intercepto_ejemplo]
  norm_num

/-- Year 2100 is not a record; the trend extrapolates to the negative
extent -5.1. -/
lemma hielo_ejemplo_2100 : hielo_para_anio datosEjemplo 2100 = -51/10 := by
  have h : datosEjemplo.find? (fun r => r.1 == (2100:ℤ)) = none := by
    simp [datosEjemplo]
  simp only [hielo_para_anio, h]
  rw [prediccion, pendiente_ejemplo, intercepto_ejemplo]
  norm_num

/-- `frac` at year 2000 on the sample data: `max 0 (5.5/7.5) = 11/15`. -/
lemma frac_ejemplo_2000 : frac datosEjemplo 2000 = 11/15 := by
  rw [frac, hielo_ejemplo_2000, baseline_ejemplo]
  norm_num [max_def]

/-- `frac` at year 1981 exceeds 1, since the predicted extent exceeds the
baseline. -/
lemma frac_ejemplo_1981 : frac datosEjemplo 1981 = 3757/3750 := by
  rw [frac, hielo_ejemplo_1981, baseline_ejemplo]
  norm_num [max_def]

/-- `frac` at year 2044 on the sample data. -/
lemma frac_ejemplo_2044 : frac datosEjemplo 2044 = 209/1875 := by
  rw [frac, hielo_ejemplo_2044, baseline_ejemplo]
  norm_num [max_def]

/-- `frac` at year 2100 is clamped to 0, the predicted extent being
negative. -/
lemma frac_ejemplo_2100 : frac datosEjemplo 2100 = 0 := by
  rw [frac, hielo_ejemplo_2100, baseline_ejemplo]
  norm_num [max_def]

/-- Rounding never moves below an integer lower bound. -/
lemma le_pyRound_of_le (n : ℤ) (q : ℚ) (h : (n : ℚ) ≤ q) : n ≤ pyRound q := by
  have hf : n ≤ ⌊q⌋ := Int.le_floor.mpr h
  rw [pyRound]
  split_ifs <;> omega

/-- Rounding never moves above an integer upper bound. -/
lemma pyRound_le_of_le (n : ℤ) (q : ℚ) (h : q ≤ (n : ℚ)) : pyRound q ≤ n := by
  have hfl : ⌊q⌋ ≤ n := by
    have := Int.floor_le_floor h
    simpa using this
  rw [pyRound]
  split_ifs with h1 h2 h3
  · exact hfl
  · have hlt : (⌊q⌋ : ℚ) < q := by linarith
    have : (⌊q⌋ : ℚ) < (n : ℚ) := lt_of_lt_of_le hlt h
    have : ⌊q⌋ < n := by exact_mod_cast this
    omega
  · exact hfl
  · have hlt : (⌊q⌋ : ℚ) < q := by linarith
    have : (⌊q⌋ : ℚ) < (n : ℚ) := lt_of_lt_of_le hlt h
    have : ⌊q⌋ < n := by exact_mod_cast this
    omega

/-- `frac` is non-negative by construction (the `max 0` clamp). -/
lemma frac_nonneg (datos : List (ℤ × ℚ)) (anio : ℤ) : 0 ≤ frac datos anio :=
  le_max_left 0 _

/-- The dynamic risk never exceeds the species' vulnerability, because
`frac ≥ 0` makes `1 - frac ≤ 1`. -/
lemma riesgo_dinamico_le (e : Especie) (datos : List (ℤ × ℚ)) (anio : ℤ)
    (hv : 0 ≤ e.vulnerabilidad) :
    riesgo_dinamico e datos anio ≤ e.vulnerabilidad := by
  have h0 : 0 ≤ frac datos anio := frac_nonneg datos anio
  rw [riesgo_dinamico]
  nlinarith

/-- With pairwise-distinct years, `find?` locates exactly the member record
with the queried year. -/
lemma find?_eq_of_mem_pairwise (datos : List (ℤ × ℚ)) (anio : ℤ) (e : ℚ)
    (hu : datos.Pairwise (fun r s => r.1 ≠ s.1)) (hm : (anio, e) ∈ datos) :
    datos.find? (fun r => r.1 == anio) = some (anio, e) := by
  induction datos with
  | nil => cases hm
  | cons hd tl ih =>
    rw [List.pairwise_cons] at hu
    rcases List.mem_cons.mp hm with heq | htl
    · subst heq
      exact List.find?_cons_of_pos _ (by simp)
    · have hne : hd.1 ≠ anio := hu.1 (anio, e) htl
      rw [List.find?_cons_of_neg _ (by simpa using hne)]
      exact ih hu.2 htl

/-- When no record carries the queried year, the query falls through to the
fitted trend. -/
lemma hielo_of_not_mem (datos : List (ℤ × ℚ)) (anio : ℤ)
    (h : ∀ r ∈ datos, r.1 ≠ anio) :
    hielo_para_anio datos anio = prediccion datos anio := by
  have hnone : datos.find? (fun r => r.1 == anio) = none :=
    List.find?_eq_none.mpr (by intro x hx; simpa using h x hx)
  simp only [hielo_para_anio, hnone]

/-- A mapped list sum as a sum over the index type. -/
lemma map_sum_fin (l : List (ℤ × ℚ)) (f : ℤ × ℚ → ℚ) :
    (l.map f).sum = ∑ i : Fin l.length, f (l.get i) := by
  rw [← Fin.sum_univ_get']
  simp [List.get_eq_getElem]

/-- Every recorded extent is bounded by the baseline (the column maximum). -/
lemma le_baseline_of_mem (datos : List (ℤ × ℚ)) (r : ℤ × ℚ) (hr : r ∈ datos) :
    r.2 ≤ baseline_hielo datos := by
  induction datos with
  | nil => cases hr
  | cons a t ih =>
    have hb : baseline_hielo (a :: t) = max a.2 (baseline_hielo t) := rfl
    rcases List.mem_cons.mp hr with h | h
    · rw [h, hb]; exact le_max_left _ _
    · exact le_trans (ih h) (hb ▸ le_max_right _ _)

/-- The dynamic risk of the polar bear at year 2000 on the sample data. -/
lemma riesgo_oso_2000 : riesgo_dinamico osoPolar datosEjemplo 2000 = 16/75 := by
  rw [riesgo_dinamico, frac_ejemplo_2000]
  norm_num [osoPolar]

/-- The dynamic risk of the polar bear at year 1981 is negative. -/
lemma riesgo_oso_1981 : riesgo_dinamico osoPolar datosEjemplo 1981 = -14/9375 := by
  rw [riesgo_dinamico, frac_ejemplo_1981]
  norm_num [osoPolar]

/-- The dynamic risk of the polar bear at year 2044 reaches the critical
band. -/
lemma riesgo_oso_2044 : riesgo_dinamico osoPolar datosEjemplo 2044 = 6664/9375 := by
  rw [riesgo_dinamico, frac_ejemplo_2044]
  norm_num [osoPolar]

/-- Individuals lost for the polar bear at year 2000:
`round(26000 * 16/75) = round(5546.67) = 5547`. -/
lemma perdidos_oso_2000 : perdidos osoPolar datosEjemplo 2000 = 5547 := by
  rw [perdidos, riesgo_oso_2000]
  norm_num [osoPolar, pyRound]

/-- Individuals lost for the polar bear at year 1981:
`round(26000 * (-14/9375)) = round(-38.83) = -39`, a negative loss. -/
lemma perdidos_oso_1981 : perdidos osoPolar datosEjemplo 1981 = -39 := by
  rw [perdidos, riesgo_oso_1981]
  norm_num [osoPolar, pyRound]

/-- Risk tiers below the 0.7 threshold are never Crítico. -/
lemma riesgo_texto_ne_critico (r : ℚ) (h : r < 0.7) :
    riesgo_texto r ≠ Riesgo.critico := by
  rw [riesgo_texto]
  split_ifs with h1 h2 <;> simp

/-- C1 counterexample: the code applies no clamp to `perdidos`. At year
1981 the fitted trend predicts an extent of 7.514, above the baseline 7.5,
so the loss fraction is negative and `perdidos` for the polar bear is -39,
violating "individuals_lost is always non-negative"; `restantes` is then
26039, exceeding the current population 26000. -/
theorem c1_counterexample :
    perdidos osoPolar datosEjemplo 1981 = -39 ∧
    perdidos osoPolar datosEjemplo 1981 < 0 ∧
    restantes osoPolar datosEjemplo 1981 = 26039 ∧
    osoPolar.pop_actual = 26000 := by
  refine ⟨perdidos_oso_1981, ?_, ?_, rfl⟩
  · rw [perdidos_oso_1981]; norm_num
  · rw [restantes, perdidos_oso_1981]; norm_num [osoPolar]

/-- C1 (amended): `individuals_lost = round(current_population *
loss_fraction)` with no clamp; it never exceeds `current_population`
(for vulnerability in [0,1] and non-negative population) but can be
negative, and `individuals_remaining = current_population -
individuals_lost` in the species tab while the map path clamps the
remaining count, not the loss, at 0. -/
theorem c1_loss_amended (e : Especie) (datos : List (ℤ × ℚ)) (anio : ℤ)
    (hv0 : 0 ≤ e.vulnerabilidad) (hv1 : e.vulnerabilidad ≤ 1)
    (hp : 0 ≤ e.pop_actual) :
    perdidos e datos anio =
      pyRound ((e.pop_actual : ℚ) * riesgo_dinamico e datos anio) ∧
    perdidos e datos anio ≤ e.pop_actual ∧
    restantes e datos anio = e.pop_actual - perdidos e datos anio ∧
    restantes_mapa e datos anio =
      max 0 (e.pop_actual - perdidos e datos anio) := by
  refine ⟨rfl, ?_, rfl, rfl⟩
  have hr : riesgo_dinamico e datos anio ≤ e.vulnerabilidad :=
    riesgo_dinamico_le e datos anio hv0
  have h1 : riesgo_dinamico e datos anio ≤ 1 := le_trans hr hv1
  have hp' : (0 : ℚ) ≤ (e.pop_actual : ℚ) := by exact_mod_cast hp
  have hq : (e.pop_actual : ℚ) * riesgo_dinamico e datos anio ≤
      (e.pop_actual : ℚ) := by nlinarith
  exact pyRound_le_of_le _ _ hq

/-- C1 amended witness: the polar bear at year 2000. -/
theorem c1_loss_amended_witness :
    perdidos osoPolar datosEjemplo 2000 ≤ osoPolar.pop_actual ∧
    restantes osoPolar datosEjemplo 2000 =
      osoPolar.pop_actual - perdidos osoPolar datosEjemplo 2000 := by
  have h := c1_loss_amended osoPolar datosEjemplo 2000
    (by norm_num [osoPolar]) (by norm_num [osoPolar]) (by norm_num [osoPolar])
  exact ⟨h.2.1, h.2.2.1⟩

/-- C2: for a year present in the historical record set (years pairwise
distinct), `hielo_para_anio` returns exactly that record's extent,
bypassing the fitted trend. -/
theorem c2_exact_match_precedence (datos : List (ℤ × ℚ)) (anio : ℤ) (e : ℚ)
    (hu : datos.Pairwise (fun r s => r.1 ≠ s.1)) (hm : (anio, e) ∈ datos) :
    hielo_para_anio datos anio = e := by
  simp only [hielo_para_anio, find?_eq_of_mem_pairwise datos anio e hu hm]

/-- C2 witness: year 2000 of the sample data returns the recorded 5.5. -/
theorem c2_exact_match_precedence_witness :
    hielo_para_anio datosEjemplo 2000 = 5.5 :=
  c2_exact_match_precedence datosEjemplo 2000 5.5
    (by norm_num [datosEjemplo]) (by norm_num [datosEjemplo])

/-- C3 counterexample: the code never raises an `InsufficientDataError`.
A missing or malformed CSV (zero usable records) is caught by the blanket
`except Exception` and the built-in sample data is silently substituted;
a well-formed CSV with a single record is passed straight to the fit,
which yields slope 0 rather than an error. -/
theorem c3_counterexample :
    cargar_datos CargaCSV.faltante = datosEjemplo ∧
    cargar_datos (CargaCSV.tabla false [(2000, 5.5)]) = datosEjemplo ∧
    pendiente [(2000, 5.5)] = 0 := by
  refine ⟨rfl, rfl, ?_⟩
  norm_num [pendiente, nDatos, sumX, sumY, sumXY, sumXX]

/-- C3 (amended): model construction never fails: on any loading failure
(missing file or missing required columns) the code silently substitutes
the built-in 5-point sample data (with a user-visible warning), and a
well-formed table of any size — including fewer than 2 records — is sorted
by year and used without a record-count check. -/
theorem c3_fallback_amended :
    cargar_datos CargaCSV.faltante = datosEjemplo ∧
    (∀ filas, cargar_datos (CargaCSV.tabla false filas) = datosEjemplo) ∧
    (∀ filas, cargar_datos (CargaCSV.tabla true filas) =
      filas.mergeSort (fun a b => a.1 ≤ b.1)) :=
  ⟨rfl, fun _ => rfl, fun _ => rfl⟩

/-- C4: for a year absent from the record set, `hielo_para_anio` returns
exactly the fitted trend value `a * year + b`, with no bounds check and no
floor clamp; in particular the far-future year 2100 yields a negative
extent on the sample data, returned as-is. -/
theorem c4_linear_extrapolation (datos : List (ℤ × ℚ)) (anio : ℤ)
    (h : ∀ r ∈ datos, r.1 ≠ anio) :
    hielo_para_anio datos anio = pendiente datos * anio + intercepto datos ∧
    hielo_para_anio datosEjemplo 2100 < 0 := by
  constructor
  · rw [hielo_of_not_mem datos anio h]; rfl
  · rw [hielo_ejemplo_2100]; norm_num

/-- C4 witness: year 2100 on the sample data. -/
theorem c4_linear_extrapolation_witness :
    hielo_para_anio datosEjemplo 2100 =
      pendiente datosEjemplo * 2100 + intercepto datosEjemplo ∧
    hielo_para_anio datosEjemplo 2100 < 0 :=
  c4_linear_extrapolation datosEjemplo 2100 (by norm_num [datosEjemplo])

/-- C5: the risk tier uses lower-inclusive half-open buckets on the loss
fraction: `< 0.2 → Bajo`, `[0.2, 0.4) → Moderado`, `[0.4, 0.7) → Alto`,
`>= 0.7 → Crítico`; exactly 0.2 lands in Moderado. -/
theorem c5_risk_tier_thresholds (r : ℚ) :
    (r < 0.2 → riesgo_texto r = Riesgo.bajo) ∧
    (0.2 ≤ r → r < 0.4 → riesgo_texto r = Riesgo.moderado) ∧
    (0.4 ≤ r → r < 0.7 → riesgo_texto r = Riesgo.alto) ∧
    (0.7 ≤ r → riesgo_texto r = Riesgo.critico) ∧
    riesgo_texto 0.2 = Riesgo.moderado := by
  refine ⟨?_, ?_, ?_, ?_, by norm_num [riesgo_texto]⟩
  · intro h
    rw [riesgo_texto, if_pos h]
  · intro h1 h2
    rw [riesgo_texto, if_neg (by linarith), if_pos h2]
  · intro h1 h2
    rw [riesgo_texto, if_neg (by linarith), if_neg (by linarith), if_pos h2]
  · intro h1
    rw [riesgo_texto, if_neg (by linarith), if_neg (by linarith),
      if_neg (by linarith)]

/-- C5 witness: one representative per bucket and the 0.2 boundary. -/
theorem c5_risk_tier_thresholds_witness :
    riesgo_texto 0.1 = Riesgo.bajo ∧
    riesgo_texto 0.2 = Riesgo.moderado ∧
    riesgo_texto 0.4 = Riesgo.alto ∧
    riesgo_texto 0.7 = Riesgo.critico :=
  ⟨(c5_risk_tier_thresholds 0.1).1 (by norm_num),
   (c5_risk_tier_thresholds 0.2).2.1 (by norm_num) (by norm_num),
   (c5_risk_tier_thresholds 0.4).2.2.1 (by norm_num) (by norm_num),
   (c5_risk_tier_thresholds 0.7).2.2.2.1 (by norm_num)⟩

/-- C6: the ecosystem state classifies the projected extent by the fixed
constants 6 and 4: `> 6 → estable`, `4 <= extent <= 6 → riesgo`,
`< 4 → crítico`; extents of exactly 6.0 and 4.0 are both `riesgo`
(so 6.0 is not `estable`). -/
theorem c6_ecosystem_thresholds (datos : List (ℤ × ℚ)) (anio : ℤ) :
    (6 < hielo_para_anio datos anio →
      estado_para_anio datos anio = Estado.estable) ∧
    (4 ≤ hielo_para_anio datos anio → hielo_para_anio datos anio ≤ 6 →
      estado_para_anio datos anio = Estado.riesgo) ∧
    (hielo_para_anio datos anio < 4 →
      estado_para_anio datos anio = Estado.critico) ∧
    estado 6 = Estado.riesgo ∧
    estado 4 = Estado.riesgo := by
  refine ⟨?_, ?_, ?_, ?_, ?_⟩
  · intro h
    rw [estado_para_anio, estado, if_pos h]
  · intro h1 h2
    rw [estado_para_anio, estado, if_neg (by simpa using h2), if_pos ⟨h1, h2⟩]
  · intro h
    rw [estado_para_anio, estado, if_neg (by push_neg; linarith),
      if_neg (by rintro ⟨h4, _⟩; linarith)]
  · rw [estado, if_neg (by norm_num), if_pos (by norm_num)]
  · rw [estado, if_neg (by norm_num), if_pos (by norm_num)]

/-- C6 witness: year 2000 of the sample data projects 5.5, classified
`riesgo`. -/
theorem c6_ecosystem_thresholds_witness :
    estado_para_anio datosEjemplo 2000 = Estado.riesgo :=
  (c6_ecosystem_thresholds datosEjemplo 2000).2.1
    (by rw [hielo_ejemplo_2000]; norm_num)
    (by rw [hielo_ejemplo_2000]; norm_num)

/-- C7: `frac` is `max(0, extent / baseline)` with the baseline bounding
every recorded extent from above, so it is non-negative for every year —
including year 2100, where the extrapolated extent is negative and the
clamp yields 0. -/
theorem c7_baseline_fraction_clamp :
    (∀ (datos : List (ℤ × ℚ)) (anio : ℤ),
        frac datos anio =
          max 0 (hielo_para_anio datos anio / baseline_hielo datos) ∧
        0 ≤ frac datos anio) ∧
    (∀ datos : List (ℤ × ℚ), ∀ r ∈ datos, r.2 ≤ baseline_hielo datos) ∧
    hielo_para_anio datosEjemplo 2100 < 0 ∧
    frac datosEjemplo 2100 = 0 :=
  ⟨fun datos anio => ⟨rfl, frac_nonneg datos anio⟩,
   fun datos r hr => le_baseline_of_mem datos r hr,
   by rw [hielo_ejemplo_2100]; norm_num,
   frac_ejemplo_2100⟩

/-- C7 witness: the 1980 record is bounded by the baseline, and the clamp
holds at year 2100. -/
theorem c7_baseline_fraction_clamp_witness :
    (7.5 : ℚ) ≤ baseline_hielo datosEjemplo ∧ 0 ≤ frac datosEjemplo 2100 := by
  have h := c7_baseline_fraction_clamp
  refine ⟨?_, (h.1 datosEjemplo 2100).2⟩
  have hb := h.2.1 datosEjemplo (1980, 7.5) (by norm_num [datosEjemplo])
  simpa using hb

/-- C8: end-to-end check for the polar bear at year 2000 on the sample
data: fraction 5.5/7.5, loss fraction 0.8·(1 − 5.5/7.5), 5547 individuals
lost, 20453 remaining, tier Moderado. -/
theorem c8_end_to_end_polar_bear :
    frac datosEjemplo 2000 = 5.5 / 7.5 ∧
    riesgo_dinamico osoPolar datosEjemplo 2000 = 0.8 * (1 - 5.5 / 7.5) ∧
    perdidos osoPolar datosEjemplo 2000 = 5547 ∧
    restantes osoPolar datosEjemplo 2000 = 20453 ∧
    riesgo_texto (riesgo_dinamico osoPolar datosEjemplo 2000) =
      Riesgo.moderado := by
  refine ⟨by rw [frac_ejemplo_2000]; norm_num,
          by rw [riesgo_oso_2000]; norm_num,
          perdidos_oso_2000,
          by rw [restantes, perdidos_oso_2000]; norm_num [osoPolar],
          by rw [riesgo_oso_2000]; norm_num [riesgo_texto]⟩

/-- C10: since `frac` is clamped at 0, the loss fraction never exceeds the
species' vulnerability; a species with vulnerability below 0.7 is never
Crítico, so of the four built-in species only the polar bear can be — and
it is, at year 2044 on the sample data. -/
theorem c10_vulnerability_caps_risk :
    (∀ (e : Especie) (datos : List (ℤ × ℚ)) (anio : ℤ),
        0 ≤ e.vulnerabilidad →
        riesgo_dinamico e datos anio ≤ e.vulnerabilidad) ∧
    (∀ (e : Especie) (datos : List (ℤ × ℚ)) (anio : ℤ),
        0 ≤ e.vulnerabilidad → e.vulnerabilidad < 0.7 →
        riesgo_texto (riesgo_dinamico e datos anio) ≠ Riesgo.critico) ∧
    (∀ (datos : List (ℤ × ℚ)) (anio : ℤ),
        riesgo_texto (riesgo_dinamico focaAnillada datos anio) ≠
          Riesgo.critico ∧
        riesgo_texto (riesgo_dinamico morsa datos anio) ≠ Riesgo.critico ∧
        riesgo_texto (riesgo_dinamico narval datos anio) ≠ Riesgo.critico) ∧
    riesgo_texto (riesgo_dinamico osoPolar datosEjemplo 2044) =
      Riesgo.critico := by
  have hne : ∀ (e : Especie) (datos : List (ℤ × ℚ)) (anio : ℤ),
      0 ≤ e.vulnerabilidad → e.vulnerabilidad < 0.7 →
      riesgo_texto (riesgo_dinamico e datos anio) ≠ Riesgo.critico := by
    intro e datos anio hv0 hv7
    exact riesgo_texto_ne_critico _
      (lt_of_le_of_lt (riesgo_dinamico_le e datos anio hv0) hv7)
  refine ⟨fun e datos anio hv0 => riesgo_dinamico_le e datos anio hv0,
          hne, ?_, ?_⟩
  · intro datos anio
    exact ⟨hne focaAnillada datos anio (by norm_num [focaAnillada])
            (by norm_num [focaAnillada]),
          hne morsa datos anio (by norm_num [morsa]) (by norm_num [morsa]),
          hne narval datos anio (by norm_num [narval]) (by norm_num [narval])⟩
  · rw [riesgo_oso_2044]
    norm_num [riesgo_texto]

/-- C10 witness: the narwhal at year 2044 stays below its vulnerability
0.4 and is not Crítico. -/
theorem c10_vulnerability_caps_risk_witness :
    riesgo_dinamico narval datosEjemplo 2044 ≤ narval.vulnerabilidad ∧
    riesgo_texto (riesgo_dinamico narval datosEjemplo 2044) ≠
      Riesgo.critico := by
  have h := c10_vulnerability_caps_risk
  exact ⟨h.1 narval datosEjemplo 2044 (by norm_num [narval]),
         (h.2.2.1 datosEjemplo 2044).2.2⟩

/-- Chebyshev numerator bound: when `y` antivaries with `x`, the OLS slope
numerator `n·Σxy − Σx·Σy` is non-positive. -/
lemma chebyshev_num_nonpos (n : ℕ) (x y : Fin n → ℚ) (h : Antivary y x) :
    (n : ℚ) * (∑ i, x i * y i) - (∑ i, x i) * (∑ i, y i) ≤ 0 := by
  have hcheb := h.card_mul_sum_le_sum_mul_sum
  rw [Fintype.card_fin] at hcheb
  have hc : ∑ i, y i * x i = ∑ i, x i * y i :=
    Finset.sum_congr rfl (fun i _ => mul_comm _ _)
  rw [hc, mul_comm (∑ i, y i) (∑ i, x i)] at hcheb
  linarith

/-- Cauchy–Schwarz denominator bound: the OLS slope denominator
`n·Σx² − (Σx)²` is non-negative. -/
lemma chebyshev_den_nonneg (n : ℕ) (x : Fin n → ℚ) :
    0 ≤ (n : ℚ) * (∑ i, x i ^ 2) - (∑ i, x i) ^ 2 := by
  have h := sq_sum_le_card_mul_sum_sq
    (s := (Finset.univ : Finset (Fin n))) (f := x)
  rw [Finset.card_univ, Fintype.card_fin] at h
  linarith

/-- C9: if the recorded ice extents are non-increasing as the year
increases, the fitted least-squares slope is non-positive. -/
theorem c9_slope_nonpos (datos : List (ℤ × ℚ))
    (h : ∀ i j : Fin datos.length,
        (datos.get i).1 < (datos.get j).1 →
        (datos.get j).2 ≤ (datos.get i).2) :
    pendiente datos ≤ 0 := by
  have hanti : Antivary (fun i : Fin datos.length => (datos.get i).2)
      (fun i : Fin datos.length => ((datos.get i).1 : ℚ)) := by
    intro i j hij
    have hij' : ((datos.get i).1 : ℚ) < ((datos.get j).1 : ℚ) := hij
    exact h i j (by exact_mod_cast hij')
  have hnum := chebyshev_num_nonpos datos.length
    (fun i => ((datos.get i).1 : ℚ)) (fun i => (datos.get i).2) hanti
  have hden := chebyshev_den_nonneg datos.length
    (fun i => ((datos.get i).1 : ℚ))
  rw [pendiente]
  apply div_nonpos_iff.mpr
  right
  constructor
  · rw [nDatos, sumXY, sumX, sumY]
    simp only [map_sum_fin]
    exact sub_nonpos.mpr (sub_nonpos.mp hnum)
  · rw [nDatos, sumXX, sumX]
    simp only [map_sum_fin]
    linarith [hden]

/-- C9 witness: the sample data is non-increasing in extent as the year
grows, and its fitted slope -0.106 is non-positive. -/
theorem c9_slope_nonpos_witness :
    (∀ i j : Fin datosEjemplo.length,
        (datosEjemplo.get i).1 < (datosEjemplo.get j).1 →
        (datosEjemplo.get j).2 ≤ (datosEjemplo.get i).2) ∧
    pendiente datosEjemplo ≤ 0 := by
  have hh : ∀ i j : Fin datosEjemplo.length,
      (datosEjemplo.get i).1 < (datosEjemplo.get j).1 →
      (datosEjemplo.get j).2 ≤ (datosEjemplo.get i).2 := by
    intro i j
    fin_cases i <;> fin_cases j <;> intro hij <;>
      norm_num [datosEjemplo] at hij ⊢
  exact ⟨hh, c9_slope_nonpos datosEjemplo hh⟩

end AlertaBoreal
